import Mathlib

/-
Shallow embedding of src/conn.go from nenad/go-libutp: the per-connection
state machine of the µTP synchronization adapter, its blocking Read/Write
protocols, Close, deadline setters and the five engine upcalls.

Conventions of the embedding:
- bytes are `Nat`, buffers are `List Nat`;
- absolute time instants are `Int`; a Go zero `time.Time` is `none`;
- the C engine handle `c.s` is modelled by a validity flag `sValid`
  (`c.s != nil`);
- a deadline `time.Timer` is modelled by `Option Int`: `none` when stopped,
  `some t` when armed to fire at absolute instant `t`;
- a Go `panic` is modelled by returning `none` (or `WriteOutcome.panicked`);
- the engine's non-blocking `utp_write` is an environment input: the number
  of bytes it would accept at a given loop iteration is passed in
  explicitly, as is the state observed at each iteration of a blocking
  loop (each `cond.Wait` may be overlapped by upcalls that change state).
-/

namespace Utp

/-- Errors a connection operation can report, mirroring the Go error values
of src/conn.go: io.EOF, the latched lib error (by code name),
errors.New "destroyed", errors.New "closed", and errDeadlineExceeded. -/
inductive Err where
  | eof
  | engine (code : String)
  | destroyed
  | closed
  | deadlineExceeded
deriving DecidableEq, Repr

/-- The mutable state of struct Conn (src/conn.go lines 18-38). -/
structure ConnState where
  readBuf : List Nat
  gotEOF : Bool
  gotConnect : Bool
  destroyed : Bool
  closed : Bool
  libError : Option String
  writeDeadline : Option Int
  readDeadline : Option Int
  readTimer : Option Int
  writeTimer : Option Int
  sValid : Bool
  numBytesRead : Int
  numBytesWritten : Int
deriving DecidableEq, Repr

/-- A fresh connection: empty buffer, no flags set, no deadlines, valid
engine handle. -/
def conn0 : ConnState :=
  { readBuf := []
    gotEOF := false
    gotConnect := false
    destroyed := false
    closed := false
    libError := none
    writeDeadline := none
    readDeadline := none
    readTimer := none
    writeTimer := none
    sValid := true
    numBytesRead := 0
    numBytesWritten := 0 }

/-- The deadline test of readNoWait and writeNoWait:
!deadline.IsZero() && !time.Now().Before(deadline). -/
def deadlinePassed : Option Int → Int → Bool
  | none, _ => false
  | some t, now => !decide (now < t)

/-- Result of one readNoWait call (src/conn.go lines 90-114): the updated
state, the bytes copied into the caller's buffer, the reported error, and
whether C.utp_read_drained was invoked on the engine handle. -/
structure ReadResult where
  conn : ConnState
  bytes : List Nat
  err : Option Err
  drainedCall : Bool
deriving DecidableEq, Repr

/-- readNoWait (src/conn.go lines 90-114): copy from readBuf into a buffer
of capacity bLen, advance readBuf, call utp_read_drained when bytes were
drained and the buffer emptied, then pick the error by the switch:
gotEOF, libError, destroyed, closed, read deadline, none. -/
def readNoWait (c : ConnState) (bLen : Nat) (now : Int) : ReadResult :=
  let bs := c.readBuf.take bLen
  let n := bs.length
  let buf' := c.readBuf.drop n
  let drain := n != 0 && buf'.length == 0
  let c1 := { c with readBuf := buf' }
  let e : Option Err :=
    if c1.gotEOF then some .eof
    else
      match c1.libError with
      | some code => some (.engine code)
      | none =>
        if c1.destroyed then some .destroyed
        else if c1.closed then some .closed
        else if deadlinePassed c1.readDeadline now then some .deadlineExceeded
        else none
  ⟨c1, bs, e, drain⟩

/-- Read (src/conn.go lines 116-129): loop readNoWait, accumulate the read
counter, return when bytes were copied, the buffer has zero capacity, or
an error applies; otherwise cond.Wait and retry. In this single-threaded
embedding a wait never changes the state, so the loop is fueled; `none`
means the call is still blocked after `fuel` iterations. -/
def Read (fuel : Nat) (c : ConnState) (bLen : Nat) (now : Int) :
    Option (ConnState × List Nat × Option Err) :=
  match fuel with
  | 0 => none
  | fuel' + 1 =>
    let r := readNoWait c bLen now
    let c1 := { r.conn with numBytesRead := r.conn.numBytesRead + r.bytes.length }
    if r.bytes.length != 0 || bLen == 0 || r.err.isSome then some (c1, r.bytes, r.err)
    else Read fuel' c1 bLen now

/-- The error switch of writeNoWait (src/conn.go lines 132-145):
libError, closed, destroyed, write deadline, none — in that order. -/
def writeErrCheck (c : ConnState) (now : Int) : Option Err :=
  match c.libError with
  | some code => some (.engine code)
  | none =>
    if c.closed then some .closed
    else if c.destroyed then some .destroyed
    else if deadlinePassed c.writeDeadline now then some .deadlineExceeded
    else none

/-- writeNoWait (src/conn.go lines 131-155): report a terminal condition if
one holds, else hand the buffer to C.utp_write, whose return value
`engineRet` is an environment input. `none` models a panic: taking &b[0]
of an empty buffer, or utp_write returning a negative count (line 151). -/
def writeNoWait (c : ConnState) (bLen : Nat) (now : Int) (engineRet : Int) :
    Option (Int × Option Err) :=
  match writeErrCheck c now with
  | some e => some (0, some e)
  | none =>
    if bLen = 0 then none
    else if engineRet < 0 then none
    else some (engineRet, none)

/-- Outcome of a Write call: still blocked when the iteration schedule ran
out while waiting, panicked, or returned (n, err). -/
inductive WriteOutcome where
  | blocked
  | panicked
  | returned (n : Int) (err : Option Err)
deriving DecidableEq, Repr

/-- The Write loop (src/conn.go lines 157-178). Each iteration observes a
state and an engine acceptance count from the schedule `sched` (state may
change across cond.Wait); `b = b[n1:]` panics when the engine claims more
bytes than remain. `acc` is the accumulated count n. -/
def writeGo (now : Int) : List (ConnState × Int) → Nat → Int → WriteOutcome
  | [], bLen, acc => if bLen = 0 then .returned acc none else .blocked
  | (c, r) :: rest, bLen, acc =>
    if bLen = 0 then .returned acc none
    else
      match writeNoWait c bLen now r with
      | none => .panicked
      | some (n1, e) =>
        if (bLen : Int) < n1 then .panicked
        else
          match e with
          | some e' => .returned (acc + n1) (some e')
          | none => writeGo now rest (bLen - n1.toNat) (acc + n1)

/-- Write (src/conn.go lines 157-178) entered with a buffer of length bLen
and zero bytes accumulated. -/
def Write (now : Int) (sched : List (ConnState × Int)) (bLen : Nat) : WriteOutcome :=
  writeGo now sched bLen 0

/-- The engine acceptance counts consumed by the Write loop before it
stops: one entry per iteration that reached utp_write (or hit a terminal
condition, which contributes its zero count). -/
def writeAccepts (now : Int) : List (ConnState × Int) → Nat → List Int
  | [], _ => []
  | (c, r) :: rest, bLen =>
    if bLen = 0 then []
    else
      match writeNoWait c bLen now r with
      | none => []
      | some (n1, e) =>
        if (bLen : Int) < n1 then []
        else
          match e with
          | some _ => [n1]
          | none => n1 :: writeAccepts now rest (bLen - n1.toNat)

/-- close (src/conn.go lines 72-82): no-op when already closed; otherwise,
when not destroyed, call C.utp_close and nil the handle; mark closed.
The Bool records whether the engine close primitive was invoked. -/
def closeConn (c : ConnState) : ConnState × Bool :=
  if c.closed then (c, false)
  else if c.destroyed then ({ c with closed := true }, false)
  else ({ c with sValid := false, closed := true }, true)

/-- Close (src/conn.go lines 65-70): run close under the lock and return
nil. Result: new state, whether utp_close was called, returned error. -/
def Close (c : ConnState) : ConnState × Bool × Option Err :=
  ((closeConn c).1, (closeConn c).2, none)

/-- onLibError (src/conn.go lines 40-46): panic (modelled as `none`) when
an error is already latched, else latch it and broadcast. -/
def onLibError (c : ConnState) (codeName : String) : Option ConnState :=
  match c.libError with
  | some _ => none
  | none => some { c with libError := some codeName }

/-- setConnected (src/conn.go lines 48-51). -/
def setConnected (c : ConnState) : ConnState :=
  { c with gotConnect := true }

/-- setGotEOF (src/conn.go lines 234-237). -/
def setGotEOF (c : ConnState) : ConnState :=
  { c with gotEOF := true }

/-- onDestroyed (src/conn.go lines 239-243): set destroyed and nil the
engine handle. -/
def onDestroyed (c : ConnState) : ConnState :=
  { c with destroyed := true, sValid := false }

/-- Modelled from the spec: the data-arrival upcall (on-data) appends the
delivered bytes to the inbound buffer. The append itself lives in the
repository's engine callback dispatch, which is not under src/; spec
section 4.2: on-data appends delivered bytes to inboundBuffer. -/
def onData (c : ConnState) (bs : List Nat) : ConnState :=
  { c with readBuf := c.readBuf ++ bs }

/-- Result of a deadline setter: updated state, returned error, and
whether cond.Broadcast was issued. -/
structure DeadlineResult where
  conn : ConnState
  err : Option Err
  broadcast : Bool
deriving DecidableEq, Repr

/-- SetReadDeadline (src/conn.go lines 207-219): store t; a zero t stops
the read timer, a non-zero t resets it to fire after t.Sub(now);
broadcast; return nil. -/
def setReadDeadline (c : ConnState) (t : Option Int) (now : Int) : DeadlineResult :=
  let c1 := { c with readDeadline := t }
  match t with
  | none => ⟨{ c1 with readTimer := none }, none, true⟩
  | some tv => ⟨{ c1 with readTimer := some (now + (tv - now)) }, none, true⟩

/-- SetWriteDeadline (src/conn.go lines 220-232). -/
def setWriteDeadline (c : ConnState) (t : Option Int) (now : Int) : DeadlineResult :=
  let c1 := { c with writeDeadline := t }
  match t with
  | none => ⟨{ c1 with writeTimer := none }, none, true⟩
  | some tv => ⟨{ c1 with writeTimer := some (now + (tv - now)) }, none, true⟩

/-- SetDeadline (src/conn.go lines 191-206): both deadlines and both
timers. -/
def setDeadline (c : ConnState) (t : Option Int) (now : Int) : DeadlineResult :=
  let c1 := { c with readDeadline := t, writeDeadline := t }
  match t with
  | none => ⟨{ c1 with readTimer := none, writeTimer := none }, none, true⟩
  | some tv =>
    ⟨{ c1 with readTimer := some (now + (tv - now)),
               writeTimer := some (now + (tv - now)) }, none, true⟩

/-- One atomic state transition of the connection: a single readNoWait or
writeNoWait step, Close, a deadline setter, or one of the five engine
upcalls. `none` models a panic. -/
inductive Op where
  | readOp (bLen : Nat) (now : Int)
  | writeOp (bLen : Nat) (now : Int) (r : Int)
  | closeOp
  | onDataOp (bs : List Nat)
  | onEOFOp
  | onConnectedOp
  | onErrorOp (code : String)
  | onDestroyedOp
  | setReadDeadlineOp (t : Option Int) (now : Int)
  | setWriteDeadlineOp (t : Option Int) (now : Int)
  | setDeadlineOp (t : Option Int) (now : Int)
deriving DecidableEq, Repr

/-- The state transition performed by each operation or upcall. -/
def step (c : ConnState) (op : Op) : Option ConnState :=
  match op with
  | .readOp bLen now => some (readNoWait c bLen now).conn
  | .writeOp bLen now r =>
    match writeNoWait c bLen now r with
    | none => none
    | some _ => some c
  | .closeOp => some (closeConn c).1
  | .onDataOp bs => some (onData c bs)
  | .onEOFOp => some (setGotEOF c)
  | .onConnectedOp => some (setConnected c)
  | .onErrorOp code => onLibError c code
  | .onDestroyedOp => some (onDestroyed c)
  | .setReadDeadlineOp t now => some (setReadDeadline c t now).conn
  | .setWriteDeadlineOp t now => some (setWriteDeadline c t now).conn
  | .setDeadlineOp t now => some (setDeadline c t now).conn

end Utp

namespace Utp

/-- C1: the claim fails on the code. Evaluation at the failing input: after
on-connected, on-data([0x41,0x42,0x43]) and on-eof, the first Read with a
2-byte buffer returns bytes [0x41,0x42] together with the end-of-stream
error — not (2, nil) as the claim states — because the switch in readNoWait
reports EOF whenever gotEOF is set, without requiring the buffer to be
empty; byte 0x43 is still buffered at that point, and the second Read with
a 4-byte buffer returns it with the end-of-stream error. -/
theorem c1_code_eval :
    (Read 1 (setGotEOF (onData (setConnected conn0) [0x41, 0x42, 0x43])) 2 0).map
        (fun x => (x.2.1, x.2.2)) = some ([0x41, 0x42], some Err.eof) ∧
    (readNoWait (setGotEOF (onData (setConnected conn0) [0x41, 0x42, 0x43])) 2 0).conn.readBuf
        = [0x43] ∧
    (Read 1 ((readNoWait (setGotEOF (onData (setConnected conn0) [0x41, 0x42, 0x43])) 2 0).conn)
        4 0).map (fun x => (x.2.1, x.2.2)) = some ([0x43], some Err.eof) ∧
    (some Err.eof ≠ (none : Option Err)) := by
  decide

/-- C2: counterexample to the claim as stated: in the state with
destroyed = true, closed = true and no latched error, a Write of one byte
reports the Closed error, not the Destroyed error, because the switch in
writeNoWait checks closed before destroyed. -/
theorem c2_counterexample :
    Write 0 [({ conn0 with destroyed := true, closed := true }, 0)] 1
      = WriteOutcome.returned 0 (some Err.closed) ∧
    WriteOutcome.returned 0 (some Err.closed)
      ≠ WriteOutcome.returned (0 : Int) (some Err.destroyed) := by
  decide

/-- C2 (amended): the error precedence actually applied by Write is
EngineError, then Closed, then Destroyed, then DeadlineExceeded: for every
state with closed = true and no latched error (in particular when
destroyed is also true), a Write with a non-empty buffer reports the
Closed error. -/
theorem c2_amended_closed_wins (c : ConnState) (r : Int) (rest : List (ConnState × Int))
    (now : Int) (bLen : Nat) (h0 : bLen ≠ 0) (h1 : c.libError = none)
    (h2 : c.closed = true) (_h3 : c.destroyed = true) :
    Write now ((c, r) :: rest) bLen = WriteOutcome.returned 0 (some Err.closed) := by
  have hw : writeNoWait c bLen now r = some (0, some Err.closed) := by
    unfold writeNoWait writeErrCheck
    rw [h1, h2]
    simp
  have hneg : ¬ ((bLen : Int) < 0) := by omega
  unfold Write writeGo
  rw [if_neg h0]
  simp [hw, hneg]

/-- C2 amended witness at a concrete state. -/
theorem c2_amended_closed_wins_witness :
    Write 0 [({ conn0 with destroyed := true, closed := true }, 5)] 2
      = WriteOutcome.returned 0 (some Err.closed) :=
  c2_amended_closed_wins { conn0 with destroyed := true, closed := true } 5 [] 0 2
    (by decide) (by rfl) (by rfl) (by rfl)

/-- C3: the claim fails on the code. Evaluation at the failing input: on a
connection that received on-data([0x41]) and then on-destroyed (so
destroyed = true and the engine handle is nil), a Read with a 1-byte
buffer drains the byte, empties the buffer, and readNoWait still invokes
utp_read_drained on the invalidated handle — the guard the claim (and the
struct comment in the code) require is absent. -/
theorem c3_code_eval :
    (onDestroyed (onData conn0 [0x41])).destroyed = true ∧
    (onDestroyed (onData conn0 [0x41])).sValid = false ∧
    (readNoWait (onDestroyed (onData conn0 [0x41])) 1 0).drainedCall = true ∧
    (Read 1 (onDestroyed (onData conn0 [0x41])) 1 0).map (fun x => (x.2.1, x.2.2))
      = some ([0x41], some Err.destroyed) := by
  decide

/-- C4: counterexample to the claim as stated: in the state with
closed = true, a Write with an empty buffer returns (0, nil) — the loop
body, and with it the terminal-condition check, never runs. -/
theorem c4_counterexample :
    Write 0 [({ conn0 with closed := true }, 0)] 0 = WriteOutcome.returned 0 none ∧
    WriteOutcome.returned (0 : Int) (none : Option Err)
      ≠ WriteOutcome.returned (0 : Int) (some Err.closed) := by
  decide

/-- C4 (amended): a Write with an empty buffer returns (0, nil)
unconditionally, in every state and under every schedule: the loop guard
len(b) != 0 fails immediately, so no terminal-condition check is
performed. -/
theorem c4_amended_empty_write (now : Int) (sched : List (ConnState × Int)) :
    Write now sched 0 = WriteOutcome.returned 0 none := by
  cases sched with
  | nil => rfl
  | cons hd tl =>
    obtain ⟨c, r⟩ := hd
    rfl

end Utp

namespace Utp

/-- Helper for C5: the count accumulated by the Write loop from any
starting accumulator equals that accumulator plus the sum of the engine
acceptance counts consumed before the loop stopped. -/
theorem writeGo_returned_sum (now : Int) (sched : List (ConnState × Int)) :
    ∀ (bLen : Nat) (acc n : Int) (err : Option Err),
      writeGo now sched bLen acc = WriteOutcome.returned n err →
      n = acc + (writeAccepts now sched bLen).sum := by
  induction sched with
  | nil =>
    intro bLen acc n err h
    unfold writeGo at h
    unfold writeAccepts
    by_cases hb : bLen = 0
    · simp [hb] at h ⊢
      omega
    · simp [hb] at h
  | cons hd tl ih =>
    intro bLen acc n err h
    obtain ⟨c, r⟩ := hd
    unfold writeGo at h
    unfold writeAccepts
    by_cases hb : bLen = 0
    · simp [hb] at h ⊢
      omega
    · rw [if_neg hb] at h ⊢
      cases hw : writeNoWait c bLen now r with
      | none => simp [hw] at h
      | some p =>
        obtain ⟨n1, e⟩ := p
        simp only [hw] at h ⊢
        by_cases hlt : (bLen : Int) < n1
        · simp [hlt] at h
        · simp only [if_neg hlt] at h ⊢
          cases e with
          | some e' =>
            simp at h ⊢
            omega
          | none =>
            have := ih (bLen - n1.toNat) (acc + n1) n err h
            rw [List.sum_cons]
            omega

/-- C5: for every Write call that returns, the returned byte count equals
the sum of the byte counts the engine's non-blocking write primitive
accepted across the call's loop iterations before the loop stopped (no
bytes double-counted or dropped); in particular, when a terminal condition
such as a latched engine error stops the loop, the accumulated partial
count is returned together with that error. -/
theorem c5_write_count (now : Int) (sched : List (ConnState × Int)) (bLen : Nat)
    (n : Int) (err : Option Err)
    (h : Write now sched bLen = WriteOutcome.returned n err) :
    n = (writeAccepts now sched bLen).sum := by
  have := writeGo_returned_sum now sched bLen 0 n err h
  simpa using this

/-- C5 witness: the engine accepts 2 bytes, then on-error("ECONNRESET")
latches before the next iteration; Write returns (2, EngineError) and 2
is the sum of the accepted counts. -/
theorem c5_write_count_witness :
    Write 0 [(conn0, 2), ({ conn0 with libError := some "ECONNRESET" }, 0)] 5
      = WriteOutcome.returned 2 (some (Err.engine "ECONNRESET")) ∧
    (2 : Int) = (writeAccepts 0 [(conn0, 2), ({ conn0 with libError := some "ECONNRESET" }, 0)] 5).sum :=
  ⟨by decide,
   c5_write_count 0 [(conn0, 2), ({ conn0 with libError := some "ECONNRESET" }, 0)] 5 2
     (some (Err.engine "ECONNRESET")) (by decide)⟩

/-- C6: the latched error is set at most once: a successful onLibError
upcall starts from a state with no latched error, records exactly the
given code, and any second onLibError upcall on the resulting state takes
the fatal panic path (modelled as none) instead of overwriting it. -/
theorem c6_latch_once (c : ConnState) (code1 code2 : String) (c' : ConnState)
    (h : onLibError c code1 = some c') :
    c.libError = none ∧ c'.libError = some code1 ∧ onLibError c' code2 = none := by
  unfold onLibError at h
  cases hl : c.libError with
  | some s => rw [hl] at h; simp at h
  | none =>
    rw [hl] at h
    simp at h
    subst h
    exact ⟨rfl, rfl, rfl⟩

/-- C6 witness at a concrete connection and codes. -/
theorem c6_latch_once_witness :
    conn0.libError = none ∧
    ({ conn0 with libError := some "ECONNRESET" } : ConnState).libError = some "ECONNRESET" ∧
    onLibError { conn0 with libError := some "ECONNRESET" } "ETIMEDOUT" = none :=
  c6_latch_once conn0 "ECONNRESET" "ETIMEDOUT" { conn0 with libError := some "ECONNRESET" }
    (by decide)

/-- C7: Close always returns nil; a second close call is a no-op (the
state is unchanged and the engine close primitive is not invoked again, so
it runs at most once per connection); and the engine close primitive is
invoked exactly when the connection is neither already closed nor already
destroyed. -/
theorem c7_close_idempotent (c : ConnState) :
    (Close c).2.2 = none ∧
    closeConn (closeConn c).1 = ((closeConn c).1, false) ∧
    (closeConn c).2 = (!c.closed && !c.destroyed) := by
  refine ⟨rfl, ?_, ?_⟩ <;>
    · unfold closeConn
      split_ifs <;> simp_all

end Utp

namespace Utp

/-- C8: every operation and upcall preserves the state invariants: the
closed, gotEOF and destroyed flags are monotonic, a latched error is never
cleared or changed, and the inbound buffer changes only by appending the
delivered bytes (data arrival), only by dropping the consumed head bytes
(a read step), and not at all for every other operation. -/
theorem c8_invariants (c : ConnState) (op : Op) (c' : ConnState)
    (h : step c op = some c') :
    (c.closed = true → c'.closed = true) ∧
    (c.gotEOF = true → c'.gotEOF = true) ∧
    (c.destroyed = true → c'.destroyed = true) ∧
    (∀ e, c.libError = some e → c'.libError = some e) ∧
    (match op with
     | Op.onDataOp bs => c'.readBuf = c.readBuf ++ bs
     | Op.readOp bLen _ => c'.readBuf = c.readBuf.drop (min bLen c.readBuf.length)
     | _ => c'.readBuf = c.readBuf) := by
  cases op with
  | readOp bLen now =>
    simp only [step, readNoWait, Option.some.injEq] at h
    subst h
    refine ⟨fun hx => hx, fun hx => hx, fun hx => hx, fun e he => he, ?_⟩
    simp [List.length_take]
  | writeOp bLen now r =>
    simp only [step] at h
    cases hw : writeNoWait c bLen now r with
    | none => rw [hw] at h; simp at h
    | some p =>
      rw [hw] at h
      simp at h
      subst h
      exact ⟨fun hx => hx, fun hx => hx, fun hx => hx, fun e he => he, rfl⟩
  | closeOp =>
    simp only [step, closeConn, Option.some.injEq] at h
    split_ifs at h <;> subst h <;>
      exact ⟨fun hx => by simp_all, fun hx => by simp_all, fun hx => by simp_all,
        fun e he => by simp_all, by simp⟩
  | onDataOp bs =>
    simp only [step, onData, Option.some.injEq] at h
    subst h
    exact ⟨fun hx => hx, fun hx => hx, fun hx => hx, fun e he => he, rfl⟩
  | onEOFOp =>
    simp only [step, setGotEOF, Option.some.injEq] at h
    subst h
    exact ⟨fun hx => hx, fun _ => rfl, fun hx => hx, fun e he => he, rfl⟩
  | onConnectedOp =>
    simp only [step, setConnected, Option.some.injEq] at h
    subst h
    exact ⟨fun hx => hx, fun hx => hx, fun hx => hx, fun e he => he, rfl⟩
  | onErrorOp code =>
    simp only [step, onLibError] at h
    cases hl : c.libError with
    | some s => rw [hl] at h; simp at h
    | none =>
      rw [hl] at h
      simp at h
      subst h
      exact ⟨fun hx => hx, fun hx => hx, fun hx => hx, fun e he => by simp_all, rfl⟩
  | onDestroyedOp =>
    simp only [step, onDestroyed, Option.some.injEq] at h
    subst h
    exact ⟨fun hx => hx, fun hx => hx, fun _ => rfl, fun e he => he, rfl⟩
  | setReadDeadlineOp t now =>
    simp only [step, setReadDeadline] at h
    cases t <;> simp at h <;> subst h <;>
      exact ⟨fun hx => hx, fun hx => hx, fun hx => hx, fun e he => he, rfl⟩
  | setWriteDeadlineOp t now =>
    simp only [step, setWriteDeadline] at h
    cases t <;> simp at h <;> subst h <;>
      exact ⟨fun hx => hx, fun hx => hx, fun hx => hx, fun e he => he, rfl⟩
  | setDeadlineOp t now =>
    simp only [step, setDeadline] at h
    cases t <;> simp at h <;> subst h <;>
      exact ⟨fun hx => hx, fun hx => hx, fun hx => hx, fun e he => he, rfl⟩

/-- C8 witness: the data-arrival upcall on a fresh connection. -/
theorem c8_invariants_witness :
    (conn0.closed = true → (onData conn0 [1]).closed = true) ∧
    (conn0.gotEOF = true → (onData conn0 [1]).gotEOF = true) ∧
    (conn0.destroyed = true → (onData conn0 [1]).destroyed = true) ∧
    (∀ e, conn0.libError = some e → (onData conn0 [1]).libError = some e) ∧
    (onData conn0 [1]).readBuf = conn0.readBuf ++ [1] :=
  c8_invariants conn0 (Op.onDataOp [1]) (onData conn0 [1]) rfl

/-- C9: SetReadDeadline always returns nil, broadcasts, stores t as the
read deadline, leaves the read timer stopped when t is the zero time and
armed to fire at the absolute time t otherwise (both captured by
readTimer = t), and leaves the write deadline, the write timer and every
other connection field unchanged. -/
theorem c9_set_read_deadline (c : ConnState) (t : Option Int) (now : Int) :
    (setReadDeadline c t now).err = none ∧
    (setReadDeadline c t now).broadcast = true ∧
    (setReadDeadline c t now).conn.readDeadline = t ∧
    (setReadDeadline c t now).conn.readTimer = t ∧
    (setReadDeadline c t now).conn.writeDeadline = c.writeDeadline ∧
    (setReadDeadline c t now).conn.writeTimer = c.writeTimer ∧
    (setReadDeadline c t now).conn.readBuf = c.readBuf ∧
    (setReadDeadline c t now).conn.gotEOF = c.gotEOF ∧
    (setReadDeadline c t now).conn.gotConnect = c.gotConnect ∧
    (setReadDeadline c t now).conn.destroyed = c.destroyed ∧
    (setReadDeadline c t now).conn.closed = c.closed ∧
    (setReadDeadline c t now).conn.libError = c.libError ∧
    (setReadDeadline c t now).conn.sValid = c.sValid ∧
    (setReadDeadline c t now).conn.numBytesRead = c.numBytesRead ∧
    (setReadDeadline c t now).conn.numBytesWritten = c.numBytesWritten := by
  cases t <;> simp [setReadDeadline]

/-- Helper for C10: a count returned by the Write loop from a non-negative
accumulator is non-negative. -/
theorem writeGo_returned_nonneg (now : Int) (sched : List (ConnState × Int)) :
    ∀ (bLen : Nat) (acc n : Int) (err : Option Err), 0 ≤ acc →
      writeGo now sched bLen acc = WriteOutcome.returned n err → 0 ≤ n := by
  induction sched with
  | nil =>
    intro bLen acc n err ha h
    unfold writeGo at h
    by_cases hb : bLen = 0
    · simp [hb] at h
      omega
    · simp [hb] at h
  | cons hd tl ih =>
    intro bLen acc n err ha h
    obtain ⟨c, r⟩ := hd
    unfold writeGo at h
    by_cases hb : bLen = 0
    · simp [hb] at h
      omega
    · rw [if_neg hb] at h
      cases hw : writeNoWait c bLen now r with
      | none => simp [hw] at h
      | some p =>
        obtain ⟨n1, e⟩ := p
        have hn1 : 0 ≤ n1 := by
          unfold writeNoWait at hw
          cases hc : writeErrCheck c now with
          | some e' => rw [hc] at hw; simp at hw; omega
          | none =>
            rw [hc] at hw
            rw [if_neg hb] at hw
            by_cases hr : r < 0
            · simp [hr] at hw
            · simp [hr] at hw
              omega
        simp only [hw] at h
        by_cases hlt : (bLen : Int) < n1
        · simp [hlt] at h
        · simp only [if_neg hlt] at h
          cases e with
          | some e' =>
            simp at h
            omega
          | none =>
            exact ih (bLen - n1.toNat) (acc + n1) n err (by omega) h

/-- C10: if the engine's non-blocking write primitive returns a negative
byte count while no terminal condition holds, writeNoWait panics (modelled
as none) instead of reporting an error; every writeNoWait that returns
does so with a non-negative count; and every Write call that returns
normally returns a non-negative total byte count. -/
theorem c10_write_nonneg :
    (∀ (c : ConnState) (bLen : Nat) (now r : Int),
        bLen ≠ 0 → writeErrCheck c now = none → r < 0 →
        writeNoWait c bLen now r = none) ∧
    (∀ (c : ConnState) (bLen : Nat) (now r n : Int) (e : Option Err),
        writeNoWait c bLen now r = some (n, e) → 0 ≤ n) ∧
    (∀ (now : Int) (sched : List (ConnState × Int)) (bLen : Nat) (n : Int)
        (err : Option Err),
        Write now sched bLen = WriteOutcome.returned n err → 0 ≤ n) := by
  refine ⟨?_, ?_, ?_⟩
  · intro c bLen now r hb hc hr
    unfold writeNoWait
    rw [hc, if_neg hb, if_pos hr]
  · intro c bLen now r n e hw
    unfold writeNoWait at hw
    cases hc : writeErrCheck c now with
    | some e' => rw [hc] at hw; simp at hw; omega
    | none =>
      rw [hc] at hw
      by_cases hb : bLen = 0
      · simp [hb] at hw
      · rw [if_neg hb] at hw
        by_cases hr : r < 0
        · simp [hr] at hw
        · simp [hr] at hw
          omega
  · intro now sched bLen n err h
    exact writeGo_returned_nonneg now sched bLen 0 n err (by omega) h

/-- C10 witness: a negative engine count panics on a fresh connection, and
a concrete returning Write has a non-negative count. -/
theorem c10_write_nonneg_witness :
    writeNoWait conn0 1 0 (-1) = none ∧ (0 : Int) ≤ 2 :=
  ⟨c10_write_nonneg.1 conn0 1 0 (-1) (by decide) (by decide) (by decide),
   c10_write_nonneg.2.2 0 [(conn0, 2)] 2 2 none (by decide)⟩

end Utp
